import Mathlib

/-!
Shallow embedding of the SVGA tool's codec and layer-synthesis core
(`src/services/svgaService.ts`) and proofs about it.

Modelling conventions:
* JavaScript numbers are embedded as rationals (`ℚ`); decimal literals in the
  source (`0.05`, `1e-5`, `0.577`, ...) are exactly representable.
* Loosely-typed JavaScript values (fields that may be missing or non-numeric)
  are embedded as `Option` values: `some q` is "a number", `none` is
  "undefined / non-numeric".
* JavaScript objects used as string-keyed records are embedded as association
  lists (`List (String × α)`) with JS assignment semantics (`jset`): existing
  bindings are overwritten in place, new keys are appended.
* External platform/library functions (`Math.sin`, `Math.PI`, number
  formatting, canvas PNG producers, the protobuf serializer and the pako
  compressor) are parameters of the embedded functions: the source calls them
  as opaque collaborators, so the embedding does too.
-/

namespace Svga

/-- JS record lookup: `m[k]`, `undefined` as `none`. -/
def jget {α : Type} (m : List (String × α)) (k : String) : Option α :=
  (m.find? (fun p => p.1 = k)).map (·.2)

/-- JS record assignment `m[k] = v`: overwrite an existing binding in place,
otherwise append the new key. -/
def jset {α : Type} (m : List (String × α)) (k : String) (v : α) :
    List (String × α) :=
  if (jget m k).isSome then
    m.map (fun p => if p.1 = k then (k, v) else p)
  else
    m ++ [(k, v)]

/-- JS `x % 1.0` (fmod, sign of the dividend): `x - trunc x`. -/
def jsMod1 (x : ℚ) : ℚ :=
  if 0 ≤ x then x - (⌊x⌋ : ℚ) else x - (⌈x⌉ : ℚ)

/-- JS `Math.round` on a rational: `⌊x + 1/2⌋` (halves round toward `+∞`). -/
def jsRound (x : ℚ) : ℤ := ⌊x + 1/2⌋

/-- JS `v || d` for a possibly-missing number `v` (`0` is falsy). -/
def jsOrNum (v : Option ℚ) (d : ℚ) : ℚ :=
  match v with
  | some x => if x = 0 then d else x
  | none => d

/-- JS `s || ""` for a possibly-missing string (empty string is falsy, and the
default is itself empty, so this is just `getD`). -/
def jsOrEmpty (s : Option String) : String := s.getD ""

/-- Character class `[a-zA-Z0-9_\-]` of the key-sanitizing regex. -/
def isAllowedKeyChar (c : Char) : Bool :=
  ('a' ≤ c && c ≤ 'z') || ('A' ≤ c && c ≤ 'Z') || ('0' ≤ c && c ≤ '9') ||
    c = '_' || c = '-'

/-- `sanitizeKey` (svgaService.ts:50-53): replace every character outside
`[a-zA-Z0-9_\-]` with `_`; empty/missing keys map to `""`. -/
def sanitizeKey (key : String) : String :=
  if key = "" then ""
  else String.mk (key.toList.map (fun c => if isAllowedKeyChar c then c else '_'))

/-- `forceNonZero` (svgaService.ts:56-60): epsilon strategy for layout
coordinates and transform translations. -/
def forceNonZero (val : Option ℚ) (d : ℚ := 0) : ℚ :=
  let n := match val with | some x => x | none => d
  if |n| ≤ 1e-5 then 0.00001 else n

/-- `safeFloat` (svgaService.ts:63-65): pass numbers through, substitute the
default otherwise. -/
def safeFloat (val : Option ℚ) (d : ℚ := 0) : ℚ :=
  match val with | some x => x | none => d

/-- `FALLBACK_PNG` (svgaService.ts:68-75): the constant 1×1 transparent PNG. -/
def FALLBACK_PNG : List ℕ :=
  [137, 80, 78, 71, 13, 10, 26, 10, 0, 0, 0, 13, 73, 72, 68, 82, 0, 0, 0, 1, 0,
   0, 0, 1, 8, 6, 0, 0, 0, 31, 21, 196, 137, 0, 0, 0, 1, 115, 82, 71, 66, 0, 174,
   206, 28, 233, 0, 0, 0, 4, 103, 65, 77, 65, 0, 0, 177, 143, 11, 252, 97, 5, 0,
   0, 0, 9, 112, 72, 89, 115, 0, 0, 14, 195, 0, 0, 14, 195, 1, 199, 111, 168,
   100, 0, 0, 0, 13, 73, 68, 65, 84, 24, 87, 99, 248, 255, 255, 255, 127, 0, 9,
   251, 2, 213, 14, 19, 240, 60, 0, 0, 0, 0, 73, 69, 78, 68, 174, 66, 96, 130]

/-! ## Base64 (svgaService.ts:16-47)

`uint8ArrayToBase64` builds a binary string (one code unit per byte) and calls
the platform's `btoa`; `base64ToUint8Array` strips a data-URI prefix, trims,
fixes padding and calls `atob`. `btoa`/`atob` are modelled here: bytes as
`List ℕ` (each < 256), base64 text as `List Char`. -/

/-- The base64 alphabet, index order as used by `btoa`/`atob`. -/
def b64Alphabet : List Char :=
  "ABCDEFGHIJKLMNOPQRSTUVWXYZabcdefghijklmnopqrstuvwxyz0123456789+/".toList

/-- Character of a 6-bit group. -/
def b64Enc (i : ℕ) : Char := b64Alphabet.getD i 'A'

/-- 6-bit group of an alphabet character (`none` off the alphabet). -/
def b64Dec (c : Char) : Option ℕ := b64Alphabet.findIdx? (· = c)

/-- Model of the platform `btoa` on a byte list: 3 bytes → 4 characters,
`=`-padded tail. -/
def btoaL : List ℕ → List Char
  | [] => []
  | [a] => [b64Enc (a / 4), b64Enc (a % 4 * 16), '=', '=']
  | [a, b] => [b64Enc (a / 4), b64Enc (a % 4 * 16 + b / 16), b64Enc (b % 16 * 4), '=']
  | a :: b :: c :: rest =>
      b64Enc (a / 4) :: b64Enc (a % 4 * 16 + b / 16) ::
        b64Enc (b % 16 * 4 + c / 64) :: b64Enc (c % 64) :: btoaL rest

/-- Decode the final 4-character group of a base64 string (`=`-padding allowed
only here). -/
def atobLast (c1 c2 c3 c4 : Char) : Option (List ℕ) :=
  if c3 = '=' then
    if c4 = '=' then
      match b64Dec c1, b64Dec c2 with
      | some s1, some s2 => some [s1 * 4 + s2 / 16]
      | _, _ => none
    else none
  else if c4 = '=' then
    match b64Dec c1, b64Dec c2, b64Dec c3 with
    | some s1, some s2, some s3 => some [s1 * 4 + s2 / 16, s2 % 16 * 16 + s3 / 4]
    | _, _, _ => none
  else
    match b64Dec c1, b64Dec c2, b64Dec c3, b64Dec c4 with
    | some s1, some s2, some s3, some s4 =>
        some [s1 * 4 + s2 / 16, s2 % 16 * 16 + s3 / 4, s3 % 4 * 64 + s4]
    | _, _, _, _ => none

/-- Model of the platform `atob`: decode 4 characters at a time; a malformed
input yields `none` (the DOM function throws). -/
def atobL : List Char → Option (List ℕ)
  | [] => some []
  | c1 :: c2 :: c3 :: c4 :: rest =>
      if rest = [] then atobLast c1 c2 c3 c4
      else
        match b64Dec c1, b64Dec c2, b64Dec c3, b64Dec c4, atobL rest with
        | some s1, some s2, some s3, some s4, some tail =>
            some ((s1 * 4 + s2 / 16) :: (s2 % 16 * 16 + s3 / 4) ::
              (s3 % 4 * 64 + s4) :: tail)
        | _, _, _, _, _ => none
  | _ => none

/-- `uint8ArrayToBase64` (svgaService.ts:16-23). -/
def uint8ArrayToBase64 (bytes : List ℕ) : String := String.mk (btoaL bytes)

/-- `fixBase64Padding` (svgaService.ts:26-28). -/
def fixBase64Padding (str : List Char) : List Char :=
  str ++ List.replicate ((4 - str.length % 4) % 4) '='

/-- JS whitespace test used by `String.prototype.trim`. -/
def isJsWs (c : Char) : Bool :=
  c = ' ' || c = '\t' || c = '\n' || c = '\r' || c = '\x0b' || c = '\x0c'

/-- JS `String.prototype.trim`. -/
def jsTrim (cs : List Char) : List Char :=
  ((cs.dropWhile isJsWs).reverse.dropWhile isJsWs).reverse

/-- `base64ToUint8Array` (svgaService.ts:31-47): strip a data-URI prefix (JS
`split(',')[1]` keeps the segment between the first two commas), trim, pad,
`atob`; a decode failure is caught and yields the empty array. -/
def base64ToUint8Array (base64 : String) : List ℕ :=
  let cs := base64.toList
  let cleanBase64 :=
    if cs.contains ',' then ((cs.dropWhile (· ≠ ',')).tail).takeWhile (· ≠ ',')
    else cs
  let paddedBase64 := fixBase64Padding (jsTrim cleanBase64)
  match atobL paddedBase64 with
  | some bytes => bytes
  | none => []

/-! ## Input-side document model

The decoder hands back a loosely-typed object (`SvgaData` in types.ts; sprites
are `any[]`), and the UI may splice in arbitrarily shaped values, so every
numeric field is `Option ℚ` and every sub-object is `Option`al. -/

/-- An entry of `SvgaData.images`: a base64 string or a raw `Uint8Array`. -/
inductive ImgVal : Type
  | str (s : String)
  | bytes (b : List ℕ)
deriving DecidableEq

structure JRGBA where
  r : Option ℚ := none
  g : Option ℚ := none
  b : Option ℚ := none
  a : Option ℚ := none
deriving DecidableEq

structure JTransform where
  a : Option ℚ := none
  b : Option ℚ := none
  c : Option ℚ := none
  d : Option ℚ := none
  tx : Option ℚ := none
  ty : Option ℚ := none
deriving DecidableEq

structure JLayout where
  x : Option ℚ := none
  y : Option ℚ := none
  width : Option ℚ := none
  height : Option ℚ := none
deriving DecidableEq

structure JShapeArgs where
  d : Option String := none
deriving DecidableEq

structure JRect where
  x : Option ℚ := none
  y : Option ℚ := none
  width : Option ℚ := none
  height : Option ℚ := none
  cornerRadius : Option ℚ := none
deriving DecidableEq

structure JEllipse where
  x : Option ℚ := none
  y : Option ℚ := none
  radiusX : Option ℚ := none
  radiusY : Option ℚ := none
deriving DecidableEq

structure JStyles where
  fill : Option JRGBA := none
  stroke : Option JRGBA := none
  strokeWidth : Option ℚ := none
  lineCap : Option ℕ := none
  lineJoin : Option ℕ := none
  miterLimit : Option ℚ := none
  lineDash : Option (List (Option ℚ)) := none
deriving DecidableEq

structure JShape where
  type : Option ℕ := none
  shape : Option JShapeArgs := none
  rect : Option JRect := none
  ellipse : Option JEllipse := none
  styles : Option JStyles := none
  transform : Option JTransform := none
deriving DecidableEq

structure JFrame where
  alpha : Option ℚ := none
  clipPath : Option String := none
  layout : Option JLayout := none
  transform : Option JTransform := none
  shapes : Option (List JShape) := none
deriving DecidableEq

structure JSprite where
  imageKey : Option String := none
  matteKey : Option String := none
  frames : Option (List JFrame) := none
deriving DecidableEq

structure JAudio where
  audioKey : Option String := none
  startFrame : Option ℚ := none
  endFrame : Option ℚ := none
  startTime : Option ℚ := none
  totalTime : Option ℚ := none
deriving DecidableEq

structure JParams where
  viewBoxWidth : Option ℚ := none
  viewBoxHeight : Option ℚ := none
  fps : Option ℚ := none
  frames : Option ℕ := none
deriving DecidableEq

structure SvgaData where
  version : Option String := none
  params : Option JParams := none
  images : Option (List (String × ImgVal)) := none
  sprites : Option (List JSprite) := none
  audios : Option (List JAudio) := none
deriving DecidableEq

/-! ## Output-side (sanitized) document model

`encodeSvga` rebuilds every structure field-by-field; the result of that
rebuild — the `payload` object handed to the protobuf serializer
(svgaService.ts:216-227) — is fully numeric. -/

structure EncRGBA where
  r : ℚ
  g : ℚ
  b : ℚ
  a : ℚ
deriving DecidableEq

structure EncTransform where
  a : ℚ
  b : ℚ
  c : ℚ
  d : ℚ
  tx : ℚ
  ty : ℚ
deriving DecidableEq

structure EncLayout where
  x : ℚ
  y : ℚ
  width : ℚ
  height : ℚ
deriving DecidableEq

structure EncShapeArgs where
  d : String
deriving DecidableEq

structure EncRect where
  x : ℚ
  y : ℚ
  width : ℚ
  height : ℚ
  cornerRadius : ℚ
deriving DecidableEq

structure EncEllipse where
  x : ℚ
  y : ℚ
  radiusX : ℚ
  radiusY : ℚ
deriving DecidableEq

structure EncStyles where
  fill : Option EncRGBA
  stroke : Option EncRGBA
  strokeWidth : ℚ
  lineCap : ℕ
  lineJoin : ℕ
  miterLimit : ℚ
  lineDash : List ℚ
deriving DecidableEq

structure EncShape where
  type : ℕ
  shape : Option EncShapeArgs
  rect : Option EncRect
  ellipse : Option EncEllipse
  styles : Option EncStyles
  transform : Option EncTransform
deriving DecidableEq

structure EncFrame where
  alpha : ℚ
  clipPath : String
  layout : EncLayout
  transform : EncTransform
  shapes : List EncShape
deriving DecidableEq

structure EncSprite where
  imageKey : String
  matteKey : String
  frames : List EncFrame
deriving DecidableEq

structure EncAudio where
  audioKey : String
  startFrame : ℤ
  endFrame : ℤ
  startTime : ℤ
  totalTime : ℤ
deriving DecidableEq

structure EncParams where
  viewBoxWidth : ℚ
  viewBoxHeight : ℚ
  fps : ℤ
  frames : ℤ
deriving DecidableEq

/-- The clean `payload` object built by `encodeSvga` (svgaService.ts:216-227)
just before protobuf serialization; image values are raw bytes. -/
structure Payload where
  version : String
  params : EncParams
  images : List (String × List ℕ)
  sprites : List EncSprite
  audios : List EncAudio
deriving DecidableEq

/-! ## Sanitization helpers (svgaService.ts:125-160) -/

/-- `sanitizeRGBA` (svgaService.ts:125-130). -/
def sanitizeRGBA (color : Option JRGBA) : EncRGBA :=
  { r := safeFloat (color.bind (·.r)) 0
    g := safeFloat (color.bind (·.g)) 0
    b := safeFloat (color.bind (·.b)) 0
    a := safeFloat (color.bind (·.a)) 0 }

/-- `sanitizeTransform` (svgaService.ts:132-139): scale/skew under
`safeFloat`, translations under `forceNonZero`. -/
def sanitizeTransform (t : Option JTransform) : EncTransform :=
  { a := safeFloat (t.bind (·.a)) 1
    b := safeFloat (t.bind (·.b)) 0
    c := safeFloat (t.bind (·.c)) 0
    d := safeFloat (t.bind (·.d)) 1
    tx := forceNonZero (t.bind (·.tx)) 0
    ty := forceNonZero (t.bind (·.ty)) 0 }

/-- `sanitizeLayout` (svgaService.ts:141-146): all four fields under
`forceNonZero`. -/
def sanitizeLayout (l : Option JLayout) : EncLayout :=
  { x := forceNonZero (l.bind (·.x)) 0
    y := forceNonZero (l.bind (·.y)) 0
    width := forceNonZero (l.bind (·.width)) 0
    height := forceNonZero (l.bind (·.height)) 0 }

/-- `sanitizeShape` (svgaService.ts:148-160). -/
def sanitizeShape (shape : JShape) : EncShape :=
  let type0 := shape.type.getD 0
  let emptyPathData : Bool :=
    match shape.shape with
    | none => true
    | some sa => jsOrEmpty sa.d == ""
  let type := if type0 = 0 ∧ emptyPathData then 3 else type0
  { type := type
    shape := shape.shape.map (fun sa => { d := jsOrEmpty sa.d })
    rect := shape.rect.map (fun r =>
      { x := safeFloat r.x 0, y := safeFloat r.y 0,
        width := safeFloat r.width 0, height := safeFloat r.height 0,
        cornerRadius := safeFloat r.cornerRadius 0 })
    ellipse := shape.ellipse.map (fun e =>
      { x := safeFloat e.x 0, y := safeFloat e.y 0,
        radiusX := safeFloat e.radiusX 0, radiusY := safeFloat e.radiusY 0 })
    styles := shape.styles.map (fun st =>
      { fill := st.fill.map (fun f => sanitizeRGBA (some f))
        stroke := st.stroke.map (fun s => sanitizeRGBA (some s))
        strokeWidth := safeFloat st.strokeWidth 0
        lineCap := st.lineCap.getD 0
        lineJoin := st.lineJoin.getD 0
        miterLimit := safeFloat st.miterLimit 0
        lineDash := match st.lineDash with
          | some l => l.map (fun v => safeFloat v 0)
          | none => [] })
    transform := shape.transform.map (fun t => sanitizeTransform (some t)) }

/-- `sanitizeFrame`: the frame rebuild inside `encodeSvga`
(svgaService.ts:198-204). -/
def sanitizeFrame (frame : JFrame) : EncFrame :=
  { alpha := safeFloat frame.alpha 1
    clipPath := jsOrEmpty frame.clipPath
    -- the source's ternaries `frame.layout ? sanitizeLayout(frame.layout)
    -- : sanitizeLayout({})` are the identity on the `Option` encoding
    layout := sanitizeLayout frame.layout
    transform := sanitizeTransform frame.transform
    shapes := (frame.shapes.getD []).map sanitizeShape }

/-! ## `encodeSvga` (svgaService.ts:162-233)

The image pass (lines 171-185) builds `encodedImages`, `validImageKeys` and
`keyMapping`; the sprite pass (lines 187-206) remaps keys and repairs dangling
references by mutating `encodedImages` mid-map, so it is embedded as a left
fold threading that state. -/

/-- One step of the image-preparation loop (svgaService.ts:172-184).
State: `(encodedImages, validImageKeys, keyMapping)`. -/
def encodeImagesStep
    (st : List (String × List ℕ) × List String × List (String × String))
    (kv : String × ImgVal) :
    List (String × List ℕ) × List String × List (String × String) :=
  let encodedImages := st.1
  let validImageKeys := st.2.1
  let keyMapping := jset st.2.2 kv.1 (sanitizeKey kv.1)
  let safeKey := sanitizeKey kv.1
  match kv.2 with
  | ImgVal.str v =>
      let bytes := base64ToUint8Array v
      let encodedImages :=
        jset encodedImages safeKey (if bytes.length > 0 then bytes else FALLBACK_PNG)
      (encodedImages, validImageKeys.insert safeKey, keyMapping)
  | ImgVal.bytes v =>
      (jset encodedImages safeKey v, validImageKeys.insert safeKey, keyMapping)

/-- The image-key remap at the head of the sprite pass (svgaService.ts:188-189):
`let imageKey = sprite.imageKey || ""; if (imageKey && keyMapping[imageKey])
imageKey = keyMapping[imageKey]` (a falsy — empty — mapped value is not
taken). -/
def remapImageKey (keyMapping : List (String × String)) (sprite : JSprite) : String :=
  if jsOrEmpty sprite.imageKey ≠ "" then
    match jget keyMapping (jsOrEmpty sprite.imageKey) with
    | some mapped => if mapped ≠ "" then mapped else jsOrEmpty sprite.imageKey
    | none => jsOrEmpty sprite.imageKey
  else jsOrEmpty sprite.imageKey

/-- One step of the sprite pass (svgaService.ts:187-206): remap the image key
through `keyMapping`, repair a dangling reference with `FALLBACK_PNG`, rebuild
the frames.  State: `(encodedImages, validImageKeys)`; emits one sprite. -/
def encodeSpriteStep (keyMapping : List (String × String))
    (st : List (String × List ℕ) × List String) (sprite : JSprite) :
    (List (String × List ℕ) × List String) × EncSprite :=
  (if remapImageKey keyMapping sprite ≠ "" ∧
      ¬ st.2.contains (remapImageKey keyMapping sprite) then
     (jset st.1 (remapImageKey keyMapping sprite) FALLBACK_PNG,
      st.2.insert (remapImageKey keyMapping sprite))
   else st,
   { imageKey := remapImageKey keyMapping sprite
     matteKey := jsOrEmpty sprite.matteKey
     frames := (sprite.frames.getD []).map sanitizeFrame })

/-- The sprite pass as a fold over the sprite list. -/
def encodeSprites (keyMapping : List (String × String))
    (st : List (String × List ℕ) × List String) :
    List JSprite → (List (String × List ℕ) × List String) × List EncSprite
  | [] => (st, [])
  | sprite :: rest =>
      let step := encodeSpriteStep keyMapping st sprite
      let restRes := encodeSprites keyMapping step.1 rest
      (restRes.1, step.2 :: restRes.2)

/-- The audio pass (svgaService.ts:208-214). -/
def encodeAudio (audio : JAudio) : EncAudio :=
  { audioKey := sanitizeKey (jsOrEmpty audio.audioKey)
    startFrame := jsRound (jsOrNum audio.startFrame 0)
    endFrame := jsRound (jsOrNum audio.endFrame 0)
    startTime := jsRound (jsOrNum audio.startTime 0)
    totalTime := jsRound (jsOrNum audio.totalTime 0) }

/-- `encodeSvga` up to the protobuf serializer: the clean `payload` object of
svgaService.ts:216-227 (serialization and optional deflate are external
collaborators applied to this value). -/
def encodeSvgaPayload (data : SvgaData) : Payload :=
  let st0 : List (String × List ℕ) × List String × List (String × String) :=
    ([], [], [])
  let imgSt := (data.images.getD []).foldl encodeImagesStep st0
  let spriteRes :=
    encodeSprites imgSt.2.2 (imgSt.1, imgSt.2.1) (data.sprites.getD [])
  { version := "2.0"
    params :=
      { viewBoxWidth := safeFloat ((data.params).bind (·.viewBoxWidth)) 800
        viewBoxHeight := safeFloat ((data.params).bind (·.viewBoxHeight)) 800
        fps := jsRound (jsOrNum ((data.params).bind (·.fps)) 20)
        frames := ((data.params).bind (·.frames)).getD 0 }
    images := spriteRes.1.1
    sprites := spriteRes.2
    audios := ((data.audios).getD []).map encodeAudio }

/-- Full `encodeSvga` (svgaService.ts:162-233): serialize the payload with the
external protobuf runtime, deflate at level 6 when requested and pako is
present. -/
def encodeSvga (serialize : Payload → List ℕ) (deflate6 : List ℕ → List ℕ)
    (pakoLoaded : Bool) (data : SvgaData) (compress : Bool := true) : List ℕ :=
  let buffer := serialize (encodeSvgaPayload data)
  if compress && pakoLoaded then deflate6 buffer else buffer

/-! ## `decodeSvga` (svgaService.ts:77-121)

The external collaborators (protobuf runtime, pako inflate/inflateRaw, the
protobuf parse of the root message) are parameters; a failing collaborator
call is `none`.  The second component of the result records which
decompression attempts were made, in order. -/

inductive DecompressAttempt : Type
  | std
  | raw
deriving DecidableEq

inductive DecodeError : Type
  | protobufMissing
  | pakoMissing
  | legacyZip
  | parseFailed (decompressed : Bool)
deriving DecidableEq

/-- The protobuf parse stage of `decodeSvga` (svgaService.ts:105-120): a parse
failure is annotated with whether decompression succeeded. -/
def parseStage (parse : List ℕ → Option SvgaData) (u8Arr : List ℕ)
    (decompressed : Bool) : Except DecodeError SvgaData :=
  match parse u8Arr with
  | some data => Except.ok data
  | none => Except.error (DecodeError.parseFailed decompressed)

def decodeSvga (protobufLoaded pakoLoaded : Bool)
    (inflate inflateRaw : List ℕ → Option (List ℕ))
    (parse : List ℕ → Option SvgaData)
    (buffer : List ℕ) : Except DecodeError SvgaData × List DecompressAttempt :=
  if ¬ protobufLoaded then (Except.error DecodeError.protobufMissing, [])
  else if ¬ pakoLoaded then (Except.error DecodeError.pakoMissing, [])
  else if buffer[0]? = some 0x50 ∧ buffer[1]? = some 0x4B then
    (Except.error DecodeError.legacyZip, [])
  else
    match inflate buffer with
    | some out => (parseStage parse out true, [DecompressAttempt.std])
    | none =>
        match inflateRaw buffer with
        | some out =>
            (parseStage parse out true,
             [DecompressAttempt.std, DecompressAttempt.raw])
        | none =>
            (parseStage parse buffer false,
             [DecompressAttempt.std, DecompressAttempt.raw])

/-! ## `addPlaceholderToSvga` (svgaService.ts:488-618)

External collaborators as parameters: `sinFn` is `Math.sin`, `piVal` is
`Math.PI`, `fmt` is JS number-to-string interpolation, and the three PNG
producers are the canvas-based generators (`generatePlaceholderPng`,
`generatePaleGoldSilhouette`, `generatePaleGoldRectPng`). -/

structure Rect where
  x : ℚ
  y : ℚ
  width : ℚ
  height : ℚ
deriving DecidableEq

inductive AnimationPreset : Type
  | noAnim
  | pulse
  | float
  | shine
deriving DecidableEq

structure AnimationConfig where
  cycles : ℚ
  intensity : ℚ
deriving DecidableEq

/-- One frame of the main sprite (svgaService.ts:513-543). -/
def mainFrame (sinFn : ℚ → ℚ) (piVal : ℚ) (rect : Rect)
    (animations : List AnimationPreset) (cycles intensity : ℚ)
    (totalFrames i : ℕ) : JFrame :=
  if rect.width ≤ 0 ∨ rect.height ≤ 0 then
    { alpha := some 0, layout := some {}, transform := some {} }
  else
    let progress : ℚ := if totalFrames > 0 then (i : ℚ) / (totalFrames : ℚ) else 0
    let pi2 := piVal * 2
    let animScale : ℚ :=
      if AnimationPreset.pulse ∈ animations then
        1 * (1 + sinFn (progress * pi2 * cycles) * (0.05 * intensity))
      else 1
    let animY : ℚ :=
      if AnimationPreset.float ∈ animations then
        0 + sinFn (progress * pi2 * cycles) * (6 * intensity)
      else 0
    { alpha := some 1
      layout := some { x := some 0, y := some 0, width := some rect.width,
                       height := some rect.height }
      transform := some
        { a := some animScale, d := some animScale
          tx := some (rect.x + (rect.width * (1 - animScale)) / 2)
          ty := some (rect.y + (rect.height * (1 - animScale)) / 2 + animY) } }

/-- The three shine band layers (svgaService.ts:567-571): relative offset and
alpha for leading, center and trailing bands. -/
def shineBandLayers (w : ℚ) : List (ℚ × ℚ) :=
  [(-w * 0.05, 0.3), (0, 0.9), (w * 0.05, 0.3)]

/-- The four x-coordinates of a band frame's clip quadrilateral
(svgaService.ts:580-594), as `(x1, x2, x3, x4)`. -/
def shineBandCoords (w h cycles intensity offset : ℚ) (totalFrames i : ℕ) :
    ℚ × ℚ × ℚ × ℚ :=
  let tanAngle : ℚ := 0.577
  let xOffset := h * tanAngle
  let bandWidth := w * (0.4 * intensity)
  let progress := jsMod1 ((if totalFrames > 0 then (i : ℚ) / (totalFrames : ℚ) else 0) * cycles)
  let startX := -bandWidth - xOffset
  let endX := w + bandWidth + xOffset
  let cx := startX + (endX - startX) * progress + offset
  (cx + xOffset - bandWidth / 2, cx + xOffset + bandWidth / 2,
   cx - xOffset + bandWidth / 2, cx - xOffset - bandWidth / 2)

/-- The clip path string `M x1 0 L x2 0 L x3 h L x4 h Z`
(svgaService.ts:596). -/
def quadPath (fmt : ℚ → String) (x1 x2 x3 x4 h : ℚ) : String :=
  "M " ++ fmt x1 ++ " 0 L " ++ fmt x2 ++ " 0 L " ++ fmt x3 ++ " " ++ fmt h ++
    " L " ++ fmt x4 ++ " " ++ fmt h ++ " Z"

/-- One frame of a shine band sprite (svgaService.ts:581-603). -/
def shineBandFrame (fmt : ℚ → String) (rect : Rect) (cycles intensity : ℚ)
    (offset alphaVal : ℚ) (totalFrames i : ℕ) : JFrame :=
  let cs :=
    shineBandCoords rect.width rect.height cycles intensity offset totalFrames i
  { alpha := some alphaVal
    layout := some { x := some 0, y := some 0, width := some rect.width,
                     height := some rect.height }
    transform := some { a := some 1, d := some 1, tx := some rect.x, ty := some rect.y }
    clipPath := some (quadPath fmt cs.1 cs.2.1 cs.2.2.1 cs.2.2.2 rect.height) }

/-- The list of sprites appended by one synthesizer call: the main sprite,
then (when `shine` is selected) the three band sprites. -/
def placeholderSprites (sinFn : ℚ → ℚ) (piVal : ℚ) (fmt : ℚ → String)
    (rect : Rect) (safeKeyName : String) (animations : List AnimationPreset)
    (cycles intensity : ℚ) (totalFrames : ℕ) : List JSprite :=
  let mainFrames :=
    (List.range totalFrames).map
      (mainFrame sinFn piVal rect animations cycles intensity totalFrames)
  let mainSprite : JSprite :=
    { imageKey := some safeKeyName, frames := some mainFrames, matteKey := some "" }
  if AnimationPreset.shine ∈ animations then
    mainSprite ::
      (shineBandLayers rect.width).map (fun layer =>
        { imageKey := some (safeKeyName ++ "_shine")
          frames := some ((List.range totalFrames).map
            (shineBandFrame fmt rect cycles intensity layer.1 layer.2 totalFrames))
          matteKey := some "" })
  else [mainSprite]

/-- The images record after one synthesizer call: the (copied) original
record, the main image under the sanitized key, and (when `shine` is
selected) the shine image under `key + "_shine"`. -/
def placeholderImages (baseImages : List (String × ImgVal))
    (safeKeyName : String) (pngBytes shineBytes : List ℕ)
    (shineSelected : Bool) : List (String × ImgVal) :=
  let newImages := jset baseImages safeKeyName (ImgVal.str (uint8ArrayToBase64 pngBytes))
  if shineSelected then
    jset newImages (safeKeyName ++ "_shine") (ImgVal.str (uint8ArrayToBase64 shineBytes))
  else newImages

/-- `addPlaceholderToSvga` (svgaService.ts:488-618). -/
def addPlaceholderToSvga (sinFn : ℚ → ℚ) (piVal : ℚ) (fmt : ℚ → String)
    (placeholderPng : ℚ → ℚ → List ℕ)
    (paleGoldSilhouette : List ℕ → ℚ → ℚ → List ℕ)
    (paleGoldRect : ℚ → ℚ → List ℕ)
    (svgaData : SvgaData) (rect : Rect) (keyName : String)
    (customImageBytes : Option (List ℕ))
    (animations : List AnimationPreset)
    (animConfig : AnimationConfig) : SvgaData :=
  let pngBytes := customImageBytes.getD (placeholderPng rect.width rect.height)
  let safeKeyName := sanitizeKey keyName
  let totalFrames := ((svgaData.params).bind (·.frames)).getD 0
  let cycles := animConfig.cycles
  let intensity := animConfig.intensity
  let shineSelected := AnimationPreset.shine ∈ animations
  let shineBytes : List ℕ :=
    match customImageBytes with
    | some b => if b.length > 0 then paleGoldSilhouette b rect.width rect.height
                else paleGoldRect rect.width rect.height
    | none => paleGoldRect rect.width rect.height
  { svgaData with
    images := some (placeholderImages (svgaData.images.getD []) safeKeyName
      pngBytes shineBytes shineSelected)
    sprites := some ((svgaData.sprites.getD []) ++
      placeholderSprites sinFn piVal fmt rect safeKeyName animations cycles
        intensity totalFrames) }

/-! ## Heap-level view of the synthesizer, for the copy-on-write claim

JS objects live on a heap and are passed by reference; `{...obj}` and array
spread allocate fresh containers.  `Heap`/`DocRef` make those allocations
explicit: a document holds references (cell indices) to its `images` and
`sprites` containers, and the synthesizer, which builds its result with
`{...svgaData, images: {...}, sprites: [...]}`, only ever appends fresh
cells. -/

inductive Cell : Type
  | imagesCell (m : List (String × ImgVal))
  | spritesCell (l : List JSprite)
deriving DecidableEq

structure Heap where
  cells : List Cell
deriving DecidableEq

/-- A document whose `images`/`sprites` containers are heap references. -/
structure DocRef where
  version : Option String := none
  params : Option JParams := none
  imagesRef : Option ℕ := none
  spritesRef : Option ℕ := none
  audios : Option (List JAudio) := none
deriving DecidableEq

def Heap.imagesAt (heap : Heap) (r : Option ℕ) : Option (List (String × ImgVal)) :=
  match r with
  | some i =>
      match heap.cells[i]? with
      | some (Cell.imagesCell m) => some m
      | _ => none
  | none => none

def Heap.spritesAt (heap : Heap) (r : Option ℕ) : Option (List JSprite) :=
  match r with
  | some i =>
      match heap.cells[i]? with
      | some (Cell.spritesCell l) => some l
      | _ => none
  | none => none

/-- Dereference a document. -/
def DocRef.deref (doc : DocRef) (heap : Heap) : SvgaData :=
  { version := doc.version, params := doc.params,
    images := heap.imagesAt doc.imagesRef,
    sprites := heap.spritesAt doc.spritesRef,
    audios := doc.audios }

/-- `addPlaceholderToSvga` at the heap level: dereference, run the pure
computation, store the two freshly spread containers in new cells. -/
def addPlaceholderToSvgaAlloc (sinFn : ℚ → ℚ) (piVal : ℚ) (fmt : ℚ → String)
    (placeholderPng : ℚ → ℚ → List ℕ)
    (paleGoldSilhouette : List ℕ → ℚ → ℚ → List ℕ)
    (paleGoldRect : ℚ → ℚ → List ℕ)
    (heap : Heap) (doc : DocRef) (rect : Rect) (keyName : String)
    (customImageBytes : Option (List ℕ))
    (animations : List AnimationPreset)
    (animConfig : AnimationConfig) : Heap × DocRef :=
  let result := addPlaceholderToSvga sinFn piVal fmt placeholderPng
    paleGoldSilhouette paleGoldRect (doc.deref heap) rect keyName
    customImageBytes animations animConfig
  ({ cells := heap.cells ++
      [Cell.imagesCell (result.images.getD []),
       Cell.spritesCell (result.sprites.getD [])] },
   { doc with imagesRef := some heap.cells.length,
              spritesRef := some (heap.cells.length + 1) })

/-! ## Spec-side definition for the shine-band refinement claim

The spec describes the band geometry with `xOffset = height · tan 30°`; the
code uses the literal constant `0.577`.  `claimBandCoords` follows the spec's
formula with the amended constant, for comparison with `shineBandCoords`. -/

/-- The four clip-quadrilateral x-coordinates as the spec's formula states
them (with the code's constant `0.577` in place of `tan 30°`):
`progress = (i/totalFrames · cycles) mod 1`, `bandWidth = width·0.4·intensity`,
`xOffset = height·0.577`,
`cx = (-bandWidth − xOffset) + (width + 2·bandWidth + 2·xOffset)·progress + bandOffset`. -/
def claimBandCoords (w h cycles intensity bandOffset : ℚ) (totalFrames i : ℕ) :
    ℚ × ℚ × ℚ × ℚ :=
  let bandWidth := w * 0.4 * intensity
  let xOffset := h * 0.577
  let progress := jsMod1 ((i : ℚ) / (totalFrames : ℚ) * cycles)
  let cx := (-bandWidth - xOffset) + (w + 2 * bandWidth + 2 * xOffset) * progress + bandOffset
  (cx + xOffset - bandWidth / 2, cx + xOffset + bandWidth / 2,
   cx - xOffset + bandWidth / 2, cx - xOffset - bandWidth / 2)

/-! # Theorems -/

/-! ## Record/association-list lemmas -/

theorem jget_cons {α : Type} (p : String × α) (m : List (String × α)) (k : String) :
    jget (p :: m) k = if p.1 = k then some p.2 else jget m k := by
  by_cases h : p.1 = k <;> simp [jget, List.find?_cons, h]

theorem jget_replace_ne {α : Type} (m : List (String × α)) (k k' : String) (v : α)
    (hne : k' ≠ k) :
    jget (m.map (fun p => if p.1 = k then (k, v) else p)) k' = jget m k' := by
  induction m with
  | nil => rfl
  | cons p m ih =>
      by_cases h : p.1 = k
      · simp [jget_cons, h, Ne.symm hne, ih]
      · simp only [List.map_cons, if_neg h, jget_cons, ih]

theorem jget_replace_self {α : Type} (m : List (String × α)) (k : String) (v : α)
    (h : (jget m k).isSome) :
    jget (m.map (fun p => if p.1 = k then (k, v) else p)) k = some v := by
  induction m with
  | nil => simp [jget] at h
  | cons p m ih =>
      by_cases hp : p.1 = k
      · simp [jget_cons, hp]
      · rw [jget_cons] at h
        simp only [if_neg hp] at h
        simp only [List.map_cons, if_neg hp, jget_cons, ih h, hp, ite_false]

theorem jget_jset_self {α : Type} (m : List (String × α)) (k : String) (v : α) :
    jget (jset m k v) k = some v := by
  unfold jset
  by_cases h : (jget m k).isSome
  · simp only [if_pos h]
    exact jget_replace_self m k v h
  · simp only [if_neg h]
    have hnone : jget m k = none := Option.not_isSome_iff_eq_none.mp h
    unfold jget at hnone ⊢
    rw [List.find?_append]
    rcases hfind : List.find? (fun p => decide (p.1 = k)) m with _ | p
    · simp [hfind, List.find?_cons]
    · rw [hfind] at hnone
      simp at hnone

theorem jget_jset_ne {α : Type} (m : List (String × α)) (k k' : String) (v : α)
    (hne : k' ≠ k) :
    jget (jset m k v) k' = jget m k' := by
  unfold jset
  by_cases h : (jget m k).isSome
  · simp only [if_pos h]
    exact jget_replace_ne m k k' v hne
  · simp only [if_neg h]
    unfold jget
    rw [List.find?_append]
    rcases hfind : List.find? (fun p => p.1 = k') m with _ | p
    · simp [List.find?_cons, Ne.symm hne]
    · simp [hfind]

/-! ## The epsilon-nonzero policy (claim C1) -/

theorem forceNonZero_ne_zero (val : Option ℚ) (d : ℚ) : forceNonZero val d ≠ 0 := by
  simp only [forceNonZero]
  split
  · norm_num
  · rename_i h
    intro h0
    apply h
    rw [h0]
    norm_num

theorem sanitizeLayout_ne_zero (l : Option JLayout) :
    (sanitizeLayout l).x ≠ 0 ∧ (sanitizeLayout l).y ≠ 0 ∧
    (sanitizeLayout l).width ≠ 0 ∧ (sanitizeLayout l).height ≠ 0 :=
  ⟨forceNonZero_ne_zero _ _, forceNonZero_ne_zero _ _,
   forceNonZero_ne_zero _ _, forceNonZero_ne_zero _ _⟩

theorem sanitizeTransform_translation_ne_zero (t : Option JTransform) :
    (sanitizeTransform t).tx ≠ 0 ∧ (sanitizeTransform t).ty ≠ 0 :=
  ⟨forceNonZero_ne_zero _ _, forceNonZero_ne_zero _ _⟩

theorem mem_encodeSprites_frames {km : List (String × String)}
    {l : List JSprite} {st : List (String × List ℕ) × List String} {sp : EncSprite}
    (h : sp ∈ (encodeSprites km st l).2) :
    ∃ js ∈ l, sp.frames = (js.frames.getD []).map sanitizeFrame := by
  induction l generalizing st with
  | nil => simp [encodeSprites] at h
  | cons s rest ih =>
      rw [encodeSprites] at h
      simp only [List.mem_cons] at h
      rcases h with h | h
      · exact ⟨s, List.mem_cons_self s rest, by rw [h]; rfl⟩
      · obtain ⟨js, hjs, hfrm⟩ := ih h
        exact ⟨js, List.mem_cons_of_mem s hjs, hfrm⟩

/-- C1 (counterexample): the claim says a near-zero value is bumped to
`0.00001` "in sign-matching direction"; at the numeric input `-0.00001`
(which satisfies `|v| ≤ 1e-5`) `forceNonZero` returns the positive constant
`0.00001`, not `-0.00001`. -/
theorem forceNonZero_sign_counterexample :
    forceNonZero (some (-0.00001)) = 0.00001 ∧
    forceNonZero (some (-0.00001)) ≠ -0.00001 := by
  have habs : |(-0.00001 : ℚ)| ≤ 1e-5 := by
    rw [abs_neg, abs_of_nonneg (by norm_num : (0 : ℚ) ≤ 0.00001)]
  have h1 : forceNonZero (some (-0.00001)) = 0.00001 := by
    show (if |(-0.00001 : ℚ)| ≤ 1e-5 then (0.00001 : ℚ) else (-0.00001)) = 0.00001
    rw [if_pos habs]
  exact ⟨h1, by rw [h1]; norm_num⟩

/-- C1 (amended): for every Layout field and Transform translation field
passed through the sanitizer, a numeric input `v` with `|v| ≤ 1e-5`
(including negative `v`) yields the positive constant `0.00001` regardless of
sign; `|v| > 1e-5` passes through unchanged; and no such field of an encoded
document is ever literally `0`. -/
theorem epsilon_policy (v : ℚ) (data : SvgaData) (sp : EncSprite) (fr : EncFrame)
    (hsp : sp ∈ (encodeSvgaPayload data).sprites) (hfr : fr ∈ sp.frames) :
    (|v| ≤ 1e-5 → forceNonZero (some v) = 0.00001) ∧
    (1e-5 < |v| → forceNonZero (some v) = v) ∧
    fr.layout.x ≠ 0 ∧ fr.layout.y ≠ 0 ∧ fr.layout.width ≠ 0 ∧
    fr.layout.height ≠ 0 ∧ fr.transform.tx ≠ 0 ∧ fr.transform.ty ≠ 0 := by
  have hsp' : sp ∈ (encodeSprites
      ((data.images.getD []).foldl encodeImagesStep ([], [], [])).2.2
      (((data.images.getD []).foldl encodeImagesStep ([], [], [])).1,
       ((data.images.getD []).foldl encodeImagesStep ([], [], [])).2.1)
      (data.sprites.getD [])).2 := hsp
  obtain ⟨js, _, hfrm⟩ := mem_encodeSprites_frames hsp'
  rw [hfrm] at hfr
  obtain ⟨jf, _, rfl⟩ := List.mem_map.mp hfr
  refine ⟨fun h => by simp [forceNonZero, h], fun h => by simp [forceNonZero, not_le.mpr h],
    ?_, ?_, ?_, ?_, ?_, ?_⟩
  · exact (sanitizeLayout_ne_zero _).1
  · exact (sanitizeLayout_ne_zero _).2.1
  · exact (sanitizeLayout_ne_zero _).2.2.1
  · exact (sanitizeLayout_ne_zero _).2.2.2
  · exact (sanitizeTransform_translation_ne_zero _).1
  · exact (sanitizeTransform_translation_ne_zero _).2

/-- Witness for `epsilon_policy` at `v = -0.000003` and a one-sprite,
one-frame document. -/
theorem epsilon_policy_witness :
    (|(-0.000003 : ℚ)| ≤ 1e-5 → forceNonZero (some (-0.000003)) = 0.00001) ∧
    (1e-5 < |(-0.000003 : ℚ)| → forceNonZero (some (-0.000003)) = -0.000003) ∧
    (sanitizeFrame {}).layout.x ≠ 0 ∧ (sanitizeFrame {}).layout.y ≠ 0 ∧
    (sanitizeFrame {}).layout.width ≠ 0 ∧ (sanitizeFrame {}).layout.height ≠ 0 ∧
    (sanitizeFrame {}).transform.tx ≠ 0 ∧ (sanitizeFrame {}).transform.ty ≠ 0 :=
  epsilon_policy (-0.000003)
    { sprites := some [{ frames := some [{}] }] }
    { imageKey := "", matteKey := "", frames := [sanitizeFrame {}] }
    (sanitizeFrame {})
    (by rw [show (encodeSvgaPayload { sprites := some [{ frames := some [{}] }] }).sprites
          = [{ imageKey := "", matteKey := "", frames := [sanitizeFrame {}] }] from rfl]
        exact List.mem_singleton.mpr rfl)
    (List.mem_singleton.mpr rfl)

/-! ## Dangling-reference repair (claims C2, C3) -/

/-- C3: encoding a document with an empty `images` map and one sprite whose
`imageKey` is `"missing"` produces an output whose `images` map binds
`"missing"` to the constant `FALLBACK_PNG` bytes (and the sprite keeps the
key `"missing"`). -/
theorem encode_missing_image_fallback :
    jget (encodeSvgaPayload
        { images := some [], sprites := some [{ imageKey := some "missing" }] }).images
      "missing" = some FALLBACK_PNG ∧
    (encodeSvgaPayload
        { images := some [], sprites := some [{ imageKey := some "missing" }] }).sprites.map
      (·.imageKey) = ["missing"] := by
  exact ⟨rfl, rfl⟩

theorem encodeImagesStep_fst (st : List (String × List ℕ) × List String × List (String × String))
    (kv : String × ImgVal) :
    (encodeImagesStep st kv).1 = jset st.1 (sanitizeKey kv.1)
      (match kv.2 with
       | ImgVal.str v =>
           if (base64ToUint8Array v).length > 0 then base64ToUint8Array v
           else FALLBACK_PNG
       | ImgVal.bytes v => v) := by
  rcases kv with ⟨k, v⟩
  cases v <;> rfl

theorem encodeImagesStep_keys (st : List (String × List ℕ) × List String × List (String × String))
    (kv : String × ImgVal) :
    (encodeImagesStep st kv).2.1 = st.2.1.insert (sanitizeKey kv.1) := by
  rcases kv with ⟨k, v⟩
  cases v <;> rfl

theorem encodeImagesStep_inv (st : List (String × List ℕ) × List String × List (String × String))
    (kv : String × ImgVal)
    (h : ∀ k ∈ st.2.1, (jget st.1 k).isSome) :
    ∀ k ∈ (encodeImagesStep st kv).2.1, (jget (encodeImagesStep st kv).1 k).isSome := by
  intro k hk
  rw [encodeImagesStep_keys] at hk
  rw [encodeImagesStep_fst]
  by_cases hkey : k = sanitizeKey kv.1
  · subst hkey
    rw [jget_jset_self]
    rfl
  · rw [jget_jset_ne _ _ _ _ hkey]
    exact h k ((List.mem_insert_iff.mp hk).resolve_left hkey)

theorem foldl_encodeImagesStep_inv (l : List (String × ImgVal))
    (st : List (String × List ℕ) × List String × List (String × String))
    (h : ∀ k ∈ st.2.1, (jget st.1 k).isSome) :
    ∀ k ∈ (l.foldl encodeImagesStep st).2.1,
      (jget (l.foldl encodeImagesStep st).1 k).isSome := by
  induction l generalizing st with
  | nil => exact h
  | cons kv rest ih => exact ih _ (encodeImagesStep_inv st kv h)

theorem encodeSpriteStep_state (km : List (String × String))
    (st : List (String × List ℕ) × List String) (s : JSprite) :
    (encodeSpriteStep km st s).1 = st ∨
    ((encodeSpriteStep km st s).1 =
        (jset st.1 (encodeSpriteStep km st s).2.imageKey FALLBACK_PNG,
         st.2.insert (encodeSpriteStep km st s).2.imageKey)) := by
  unfold encodeSpriteStep
  split
  · right; rfl
  · left; rfl

theorem encodeSpriteStep_inv (km : List (String × String))
    (st : List (String × List ℕ) × List String) (s : JSprite)
    (h : ∀ k ∈ st.2, (jget st.1 k).isSome) :
    ∀ k ∈ (encodeSpriteStep km st s).1.2, (jget (encodeSpriteStep km st s).1.1 k).isSome := by
  rcases encodeSpriteStep_state km st s with hst | hst
  · rw [hst]; exact h
  · rw [hst]
    intro k hk
    by_cases hkey : k = (encodeSpriteStep km st s).2.imageKey
    · subst hkey
      rw [jget_jset_self]
      rfl
    · rw [jget_jset_ne _ _ _ _ hkey]
      exact h k ((List.mem_insert_iff.mp hk).resolve_left hkey)

theorem encodeSpriteStep_mono (km : List (String × String))
    (st : List (String × List ℕ) × List String) (s : JSprite) (k : String)
    (hk : k ∈ st.2) : k ∈ (encodeSpriteStep km st s).1.2 := by
  rcases encodeSpriteStep_state km st s with hst | hst <;> rw [hst]
  · exact hk
  · exact List.mem_insert_of_mem hk

theorem encodeSpriteStep_key (km : List (String × String))
    (st : List (String × List ℕ) × List String) (s : JSprite) :
    (encodeSpriteStep km st s).2.imageKey = "" ∨
    (encodeSpriteStep km st s).2.imageKey ∈ (encodeSpriteStep km st s).1.2 := by
  unfold encodeSpriteStep
  split
  · right
    exact List.mem_insert_self _ _
  · rename_i hcond
    rw [not_and_or] at hcond
    rcases hcond with hcond | hcond
    · left
      simpa using hcond
    · right
      rw [not_not] at hcond
      exact List.elem_iff.mp hcond

theorem encodeSprites_inv (km : List (String × String)) (l : List JSprite)
    (st : List (String × List ℕ) × List String)
    (h : ∀ k ∈ st.2, (jget st.1 k).isSome) :
    ∀ k ∈ (encodeSprites km st l).1.2, (jget (encodeSprites km st l).1.1 k).isSome := by
  induction l generalizing st with
  | nil => exact h
  | cons s rest ih =>
      rw [encodeSprites]
      exact ih _ (encodeSpriteStep_inv km st s h)

theorem encodeSprites_mono (km : List (String × String)) (l : List JSprite)
    (st : List (String × List ℕ) × List String) (k : String) (hk : k ∈ st.2) :
    k ∈ (encodeSprites km st l).1.2 := by
  induction l generalizing st with
  | nil => exact hk
  | cons s rest ih =>
      rw [encodeSprites]
      exact ih _ (encodeSpriteStep_mono km st s k hk)

theorem encodeSprites_keys (km : List (String × String)) (l : List JSprite)
    (st : List (String × List ℕ) × List String)
    (h : ∀ k ∈ st.2, (jget st.1 k).isSome) :
    ∀ sp ∈ (encodeSprites km st l).2,
      sp.imageKey = "" ∨ (jget (encodeSprites km st l).1.1 sp.imageKey).isSome := by
  induction l generalizing st with
  | nil => intro sp hsp; simp [encodeSprites] at hsp
  | cons s rest ih =>
      intro sp hsp
      rw [encodeSprites] at hsp ⊢
      simp only [List.mem_cons] at hsp
      rcases hsp with rfl | hsp
      · rcases encodeSpriteStep_key km st s with hk | hk
        · exact Or.inl hk
        · right
          have hmem := encodeSprites_mono km rest _ _ hk
          exact encodeSprites_inv km rest _ (encodeSpriteStep_inv km st s h) _ hmem
      · exact ih _ (encodeSpriteStep_inv km st s h) sp hsp

/-- C2 (counterexample): the claim says every non-empty `matteKey` resolves to
a key of the output `images` map; encoding a document with no images and one
sprite whose `matteKey` is `"m"` leaves the sprite's `matteKey = "m"` with no
`"m"` entry in `images` — the encoder never remaps or repairs matte keys. -/
theorem encode_matteKey_dangling :
    (encodeSvgaPayload { sprites := some [{ matteKey := some "m" }] }).sprites.map
        (·.matteKey) = ["m"] ∧
    jget (encodeSvgaPayload { sprites := some [{ matteKey := some "m" }] }).images "m"
      = none :=
  ⟨rfl, rfl⟩

/-- C2 (amended): in the encoded output every sprite's non-empty `imageKey`
resolves to a key present in the output `images` map (the encoder auto-repairs
dangling image references rather than failing); matte keys are passed through
unrepaired. -/
theorem encode_imageKey_resolves (data : SvgaData) (sp : EncSprite)
    (hsp : sp ∈ (encodeSvgaPayload data).sprites) (hne : sp.imageKey ≠ "") :
    (jget (encodeSvgaPayload data).images sp.imageKey).isSome := by
  have hstart : ∀ k ∈ ((data.images.getD []).foldl encodeImagesStep ([], [], [])).2.1,
      (jget ((data.images.getD []).foldl encodeImagesStep ([], [], [])).1 k).isSome := by
    apply foldl_encodeImagesStep_inv
    intro k hk
    simp at hk
  have := encodeSprites_keys
    ((data.images.getD []).foldl encodeImagesStep ([], [], [])).2.2
    (data.sprites.getD [])
    (((data.images.getD []).foldl encodeImagesStep ([], [], [])).1,
     ((data.images.getD []).foldl encodeImagesStep ([], [], [])).2.1)
    hstart sp hsp
  exact this.resolve_left hne

/-- Witness for `encode_imageKey_resolves`: the repaired `"missing"` reference
of a concrete document resolves in the output. -/
theorem encode_imageKey_resolves_witness :
    (jget (encodeSvgaPayload
        { images := some [], sprites := some [{ imageKey := some "missing" }] }).images
      "missing").isSome :=
  encode_imageKey_resolves
    { images := some [], sprites := some [{ imageKey := some "missing" }] }
    { imageKey := "missing", matteKey := "", frames := [] }
    (by rw [show (encodeSvgaPayload
          { images := some [], sprites := some [{ imageKey := some "missing" }] }).sprites
          = [{ imageKey := "missing", matteKey := "", frames := [] }] from rfl]
        exact List.mem_singleton.mpr rfl)
    (by decide)

/-! ## Key sanitization (claim C7) -/

theorem sanitizeKey_id_of_allowed (k : String)
    (h : ∀ c ∈ k.toList, isAllowedKeyChar c = true) : sanitizeKey k = k := by
  unfold sanitizeKey
  split
  · rename_i hk
    exact hk.symm
  · have hmap : k.toList.map (fun c => if isAllowedKeyChar c then c else '_') = k.toList := by
      rw [List.map_congr_left (fun c hc => if_pos (h c hc))]
      exact List.map_id' k.toList
    rw [hmap]
    cases k
    rfl

/-- C7 (counterexample): sanitization is not one-to-one on distinct original
keys: the distinct keys `"a b"` and `"a_b"` sanitize to the same key
`"a_b"`, merging two assets under one sanitized key. -/
theorem sanitizeKey_collision :
    sanitizeKey "a b" = sanitizeKey "a_b" ∧ "a b" ≠ "a_b" := by
  constructor
  · rfl
  · decide

/-- C7 (amended): on keys already within the allowed charset `[A-Za-z0-9_-]`
sanitization is the identity, hence one-to-one: two distinct such keys keep
distinct sanitized keys.  Keys with characters outside the charset can
collide. -/
theorem sanitizeKey_injective_on_allowed (k1 k2 : String)
    (h1 : ∀ c ∈ k1.toList, isAllowedKeyChar c = true)
    (h2 : ∀ c ∈ k2.toList, isAllowedKeyChar c = true)
    (hne : k1 ≠ k2) : sanitizeKey k1 ≠ sanitizeKey k2 := by
  rw [sanitizeKey_id_of_allowed k1 h1, sanitizeKey_id_of_allowed k2 h2]
  exact hne

/-- Witness for `sanitizeKey_injective_on_allowed` on the allowed-charset keys
`"ab"` and `"a-b"`. -/
theorem sanitizeKey_injective_witness : sanitizeKey "ab" ≠ sanitizeKey "a-b" :=
  sanitizeKey_injective_on_allowed "ab" "a-b" (by decide) (by decide) (by decide)

/-! ## Legacy-format rejection (claim C8) -/

/-- C8: for every buffer whose first byte is `0x50` and second byte is `0x4B`,
decoding (with the libraries loaded) fails with the unsupported-legacy-format
error and the decompression-attempt trace is empty — neither `inflate` nor
`inflateRaw` is invoked, whatever those collaborators would return. -/
theorem decode_legacy_zip (inflate inflateRaw : List ℕ → Option (List ℕ))
    (parse : List ℕ → Option SvgaData) (buffer : List ℕ)
    (h0 : buffer[0]? = some 0x50) (h1 : buffer[1]? = some 0x4B) :
    decodeSvga true true inflate inflateRaw parse buffer =
      (Except.error DecodeError.legacyZip, []) := by
  simp [decodeSvga, h0, h1]

/-- Witness for `decode_legacy_zip` on the two-byte buffer `[0x50, 0x4B]`. -/
theorem decode_legacy_zip_witness :
    decodeSvga true true (fun _ => none) (fun _ => none) (fun _ => none)
      [0x50, 0x4B] = (Except.error DecodeError.legacyZip, []) :=
  decode_legacy_zip (fun _ => none) (fun _ => none) (fun _ => none)
    [0x50, 0x4B] rfl rfl

/-! ## Synthesizer sprite and frame counts (claim C4) -/

/-- C4: for every document with `params.frames = N`, one synthesizer call
appends exactly one main sprite with exactly `N` frames; when the `shine`
preset is selected it appends exactly 3 further band sprites, each with `N`
frames, in the order main first, bands after; without `shine` nothing else is
appended. -/
theorem synthesizer_sprite_counts (sinFn : ℚ → ℚ) (piVal : ℚ) (fmt : ℚ → String)
    (placeholderPng : ℚ → ℚ → List ℕ)
    (paleGoldSilhouette : List ℕ → ℚ → ℚ → List ℕ)
    (paleGoldRect : ℚ → ℚ → List ℕ) (data : SvgaData) (rect : Rect)
    (keyName : String) (customImageBytes : Option (List ℕ))
    (animations : List AnimationPreset) (cfg : AnimationConfig)
    (p : JParams) (N : ℕ) (hp : data.params = some p) (hN : p.frames = some N) :
    ∃ main bands,
      (addPlaceholderToSvga sinFn piVal fmt placeholderPng paleGoldSilhouette
          paleGoldRect data rect keyName customImageBytes animations cfg).sprites
        = some (data.sprites.getD [] ++ main :: bands) ∧
      (main.frames.getD []).length = N ∧
      (AnimationPreset.shine ∈ animations → bands.length = 3) ∧
      (AnimationPreset.shine ∉ animations → bands = []) ∧
      (∀ b ∈ bands, (b.frames.getD []).length = N) := by
  have htf : ((data.params).bind (fun pp => pp.frames)).getD 0 = N := by
    rw [hp]
    simp [hN]
  refine ⟨{ imageKey := some (sanitizeKey keyName)
            frames := some ((List.range N).map
              (mainFrame sinFn piVal rect animations cfg.cycles cfg.intensity N))
            matteKey := some "" },
    if AnimationPreset.shine ∈ animations then
      (shineBandLayers rect.width).map (fun layer =>
        { imageKey := some (sanitizeKey keyName ++ "_shine")
          frames := some ((List.range N).map
            (shineBandFrame fmt rect cfg.cycles cfg.intensity layer.1 layer.2 N))
          matteKey := some "" })
    else [], ?_, ?_, ?_, ?_, ?_⟩
  · simp only [addPlaceholderToSvga, htf, placeholderSprites]
    by_cases hsh : AnimationPreset.shine ∈ animations <;> simp [hsh]
  · simp
  · intro hsh
    simp [hsh, shineBandLayers]
  · intro hsh
    simp [hsh]
  · intro b hb
    by_cases hsh : AnimationPreset.shine ∈ animations
    · rw [if_pos hsh] at hb
      obtain ⟨layer, _, rfl⟩ := List.mem_map.mp hb
      simp
    · rw [if_neg hsh] at hb
      simp at hb

/-- Witness for `synthesizer_sprite_counts` on a 10-frame document with the
`shine` preset. -/
theorem synthesizer_sprite_counts_witness :
    ∃ main bands,
      (addPlaceholderToSvga (fun _ => 0) 0 (fun _ => "") (fun _ _ => [])
          (fun _ _ _ => []) (fun _ _ => [])
          { params := some { frames := some 10 } } ⟨0, 0, 4, 5⟩ "k" none
          [AnimationPreset.shine] ⟨1, 1⟩).sprites
        = some (({ params := some { frames := some 10 } } : SvgaData).sprites.getD []
            ++ main :: bands) ∧
      (main.frames.getD []).length = 10 ∧
      (AnimationPreset.shine ∈ [AnimationPreset.shine] → bands.length = 3) ∧
      (AnimationPreset.shine ∉ [AnimationPreset.shine] → bands = []) ∧
      (∀ b ∈ bands, (b.frames.getD []).length = 10) :=
  synthesizer_sprite_counts (fun _ => 0) 0 (fun _ => "") (fun _ _ => [])
    (fun _ _ _ => []) (fun _ _ => [])
    { params := some { frames := some 10 } } ⟨0, 0, 4, 5⟩ "k" none
    [AnimationPreset.shine] ⟨1, 1⟩ { frames := some 10 } 10 rfl rfl

/-! ## The pulse scenario (claim C5) -/

/-- C5: invoking the synthesizer on a 10-frame document with target rect
`{x:10, y:20, width:100, height:50}`, key name `"My Key!"`, no raster bytes,
the `pulse` preset and config `{cycles:1, intensity:1}` appends one main
sprite with `imageKey = "My_Key_"` whose frame `i` has
`a = d = 1 + sin(i/10 · 2π) · 0.05`,
`tx = 10 + 100·(1−scale)/2`, `ty = 20 + 50·(1−scale)/2`; in particular
(since `sin 0 = 0`) frame 0 has `a = d = 1`, `tx = 10`, `ty = 20`. -/
theorem placeholder_pulse_scenario (sinFn : ℚ → ℚ) (piVal : ℚ) (fmt : ℚ → String)
    (placeholderPng : ℚ → ℚ → List ℕ)
    (paleGoldSilhouette : List ℕ → ℚ → ℚ → List ℕ)
    (paleGoldRect : ℚ → ℚ → List ℕ) (data : SvgaData) (p : JParams)
    (hp : data.params = some p) (hN : p.frames = some 10)
    (hsin0 : sinFn 0 = 0) :
    ∃ main : JSprite,
      (addPlaceholderToSvga sinFn piVal fmt placeholderPng paleGoldSilhouette
          paleGoldRect data ⟨10, 20, 100, 50⟩ "My Key!" none
          [AnimationPreset.pulse] ⟨1, 1⟩).sprites
        = some (data.sprites.getD [] ++ [main]) ∧
      main.imageKey = some "My_Key_" ∧
      (∀ i : ℕ, i < 10 →
        (main.frames.getD [])[i]? = some
          { alpha := some 1
            layout := some { x := some 0, y := some 0, width := some 100,
                             height := some 50 }
            transform := some
              { a := some (1 + sinFn ((i : ℚ) / 10 * (2 * piVal)) * 0.05)
                d := some (1 + sinFn ((i : ℚ) / 10 * (2 * piVal)) * 0.05)
                tx := some (10 + 100 * (1 - (1 + sinFn ((i : ℚ) / 10 * (2 * piVal)) * 0.05)) / 2)
                ty := some (20 + 50 * (1 - (1 + sinFn ((i : ℚ) / 10 * (2 * piVal)) * 0.05)) / 2) } }) ∧
      (main.frames.getD [])[0]? = some
        { alpha := some 1
          layout := some { x := some 0, y := some 0, width := some 100,
                           height := some 50 }
          transform := some
            { a := some 1, d := some 1, tx := some 10, ty := some 20 } } := by
  have htf : ((data.params).bind (fun pp => pp.frames)).getD 0 = 10 := by
    rw [hp]
    simp [hN]
  have hkey : sanitizeKey "My Key!" = "My_Key_" := rfl
  have hframe : ∀ i : ℕ, i < 10 →
      mainFrame sinFn piVal ⟨10, 20, 100, 50⟩ [AnimationPreset.pulse] 1 1 10 i =
        { alpha := some 1
          layout := some { x := some 0, y := some 0, width := some 100,
                           height := some 50 }
          transform := some
            { a := some (1 + sinFn ((i : ℚ) / 10 * (2 * piVal)) * 0.05)
              d := some (1 + sinFn ((i : ℚ) / 10 * (2 * piVal)) * 0.05)
              tx := some (10 + 100 * (1 - (1 + sinFn ((i : ℚ) / 10 * (2 * piVal)) * 0.05)) / 2)
              ty := some (20 + 50 * (1 - (1 + sinFn ((i : ℚ) / 10 * (2 * piVal)) * 0.05)) / 2) } } := by
    intro i _
    have harg : (i : ℚ) / 10 * (piVal * 2) * 1 = (i : ℚ) / 10 * (2 * piVal) := by
      ring
    have hpul : AnimationPreset.pulse ∈ [AnimationPreset.pulse] := by decide
    have hflo : AnimationPreset.float ∉ [AnimationPreset.pulse] := by decide
    simp only [mainFrame]
    norm_num [harg, hpul, hflo]
    intro h
    exact absurd h (by decide)
  refine ⟨{ imageKey := some "My_Key_"
            frames := some ((List.range 10).map
              (mainFrame sinFn piVal ⟨10, 20, 100, 50⟩ [AnimationPreset.pulse] 1 1 10))
            matteKey := some "" }, ?_, rfl, ?_, ?_⟩
  · simp only [addPlaceholderToSvga, htf, placeholderSprites, hkey]
    simp [show AnimationPreset.shine ∉ [AnimationPreset.pulse] by decide]
  · intro i hi
    simp only [Option.getD_some, List.getElem?_map, List.getElem?_range hi,
      Option.map_some']
    rw [hframe i hi]
  · have h0 := hframe 0 (by norm_num)
    simp only [Option.getD_some, List.getElem?_map, List.getElem?_range (by norm_num : (0:ℕ) < 10),
      Option.map_some']
    rw [h0]
    norm_num [hsin0]

/-- Witness for `placeholder_pulse_scenario` with the zero sine oracle on a
minimal 10-frame document. -/
theorem placeholder_pulse_scenario_witness :
    ∃ main : JSprite,
      (addPlaceholderToSvga (fun _ => 0) 0 (fun _ => "") (fun _ _ => [])
          (fun _ _ _ => []) (fun _ _ => [])
          { params := some { frames := some 10 } } ⟨10, 20, 100, 50⟩ "My Key!" none
          [AnimationPreset.pulse] ⟨1, 1⟩).sprites
        = some (({ params := some { frames := some 10 } } : SvgaData).sprites.getD []
            ++ [main]) ∧
      main.imageKey = some "My_Key_" ∧
      (∀ i : ℕ, i < 10 →
        (main.frames.getD [])[i]? = some
          { alpha := some 1
            layout := some { x := some 0, y := some 0, width := some 100,
                             height := some 50 }
            transform := some
              { a := some (1 + (fun (_ : ℚ) => (0 : ℚ)) ((i : ℚ) / 10 * (2 * 0)) * 0.05)
                d := some (1 + (fun (_ : ℚ) => (0 : ℚ)) ((i : ℚ) / 10 * (2 * 0)) * 0.05)
                tx := some (10 + 100 * (1 - (1 + (fun (_ : ℚ) => (0 : ℚ)) ((i : ℚ) / 10 * (2 * 0)) * 0.05)) / 2)
                ty := some (20 + 50 * (1 - (1 + (fun (_ : ℚ) => (0 : ℚ)) ((i : ℚ) / 10 * (2 * 0)) * 0.05)) / 2) } }) ∧
      (main.frames.getD [])[0]? = some
        { alpha := some 1
          layout := some { x := some 0, y := some 0, width := some 100,
                           height := some 50 }
          transform := some
            { a := some 1, d := some 1, tx := some 10, ty := some 20 } } :=
  placeholder_pulse_scenario (fun _ => 0) 0 (fun _ => "") (fun _ _ => [])
    (fun _ _ _ => []) (fun _ _ => [])
    { params := some { frames := some 10 } } { frames := some 10 } rfl rfl rfl

/-! ## Shine band geometry (claim C6) -/

theorem shineBandCoords_eq_claim (w h cycles intensity offset : ℚ) (N i : ℕ)
    (hN : 0 < N) :
    shineBandCoords w h cycles intensity offset N i =
      claimBandCoords w h cycles intensity offset N i := by
  simp only [shineBandCoords, claimBandCoords, if_pos hN]
  simp only [Prod.mk.injEq]
  refine ⟨by ring, by ring, by ring, by ring⟩

/-- C6 (counterexample): the claim computes `xOffset = height · tan 30°`; the
code uses the constant `0.577`, which is not `tan 30° = 1/√3`.  At the
concrete invocation `width = 100`, `height = 50`, `cycles = intensity = 1`,
`bandOffset = 0` (center band), `totalFrames = 1`, frame `i = 0`, the third
x-coordinate of the emitted clip quadrilateral (`cx − xOffset + bandWidth/2`)
differs from the claim's value. -/
theorem shine_tan_counterexample :
    (((shineBandCoords 100 50 1 1 0 1 0).2.2.1 : ℚ) : ℝ) ≠
      ((-(100 * 0.4 * 1) - 50 * Real.tan (Real.pi / 6)) +
          (100 + 2 * (100 * 0.4 * 1) + 2 * (50 * Real.tan (Real.pi / 6))) *
            ((jsMod1 ((0 : ℚ) / 1 * 1) : ℚ) : ℝ) + 0) -
        50 * Real.tan (Real.pi / 6) + (100 * 0.4 * 1) / 2 := by
  have hq : (shineBandCoords 100 50 1 1 0 1 0).2.2.1 = -777/10 := by
    norm_num [shineBandCoords, jsMod1]
  have hm : jsMod1 ((0 : ℚ) / 1 * 1) = 0 := by
    norm_num [jsMod1]
  rw [hq, hm, Real.tan_pi_div_six]
  intro h
  push_cast at h
  have hsq : Real.sqrt 3 ^ 2 = 3 := Real.sq_sqrt (by norm_num)
  have hpos : (0 : ℝ) < Real.sqrt 3 := Real.sqrt_pos.mpr (by norm_num)
  have h3 : Real.sqrt 3 * 577 = 1000 := by
    field_simp at h
    nlinarith [h, hpos, hsq]
  have h4 : (Real.sqrt 3 * 577) ^ 2 = 1000 ^ 2 := by rw [h3]
  rw [mul_pow, hsq] at h4
  norm_num at h4

/-- C6 (amended): for every shine band (offsets `{-0.05·w, 0, +0.05·w}`,
alphas `{0.3, 0.9, 0.3}`, in leading/center/trailing order) and every frame
`i < N`, the emitted frame's `clipPath` is the quadrilateral
`M x1 0 L x2 0 L x3 h L x4 h Z` over the four coordinates of
`claimBandCoords`: `bandWidth = w·0.4·intensity`, `xOffset = h·0.577` (the
code's constant, amended from `tan 30°`),
`progress = (i/N · cycles) mod 1`, and
`cx = (−bandWidth − xOffset) + (w + 2·bandWidth + 2·xOffset)·progress +
bandOffset`; the frame carries the band's alpha and an identity transform
translated to the target rect's origin. -/
theorem shine_band_frames (sinFn : ℚ → ℚ) (piVal : ℚ) (fmt : ℚ → String)
    (placeholderPng : ℚ → ℚ → List ℕ)
    (paleGoldSilhouette : List ℕ → ℚ → ℚ → List ℕ)
    (paleGoldRect : ℚ → ℚ → List ℕ) (data : SvgaData) (rect : Rect)
    (keyName : String) (customImageBytes : Option (List ℕ))
    (animations : List AnimationPreset) (cfg : AnimationConfig)
    (p : JParams) (N : ℕ) (hp : data.params = some p) (hN : p.frames = some N)
    (hNpos : 0 < N) (hsh : AnimationPreset.shine ∈ animations) :
    ∃ main b1 b2 b3,
      (addPlaceholderToSvga sinFn piVal fmt placeholderPng paleGoldSilhouette
          paleGoldRect data rect keyName customImageBytes animations cfg).sprites
        = some (data.sprites.getD [] ++ [main, b1, b2, b3]) ∧
      (∀ i : ℕ, i < N →
        (b1.frames.getD [])[i]? = some
          { alpha := some 0.3
            layout := some { x := some 0, y := some 0, width := some rect.width,
                             height := some rect.height }
            transform := some { a := some 1, d := some 1, tx := some rect.x,
                                ty := some rect.y }
            clipPath := some (quadPath fmt
              (claimBandCoords rect.width rect.height cfg.cycles cfg.intensity
                (-rect.width * 0.05) N i).1
              (claimBandCoords rect.width rect.height cfg.cycles cfg.intensity
                (-rect.width * 0.05) N i).2.1
              (claimBandCoords rect.width rect.height cfg.cycles cfg.intensity
                (-rect.width * 0.05) N i).2.2.1
              (claimBandCoords rect.width rect.height cfg.cycles cfg.intensity
                (-rect.width * 0.05) N i).2.2.2
              rect.height) }) ∧
      (∀ i : ℕ, i < N →
        (b2.frames.getD [])[i]? = some
          { alpha := some 0.9
            layout := some { x := some 0, y := some 0, width := some rect.width,
                             height := some rect.height }
            transform := some { a := some 1, d := some 1, tx := some rect.x,
                                ty := some rect.y }
            clipPath := some (quadPath fmt
              (claimBandCoords rect.width rect.height cfg.cycles cfg.intensity 0 N i).1
              (claimBandCoords rect.width rect.height cfg.cycles cfg.intensity 0 N i).2.1
              (claimBandCoords rect.width rect.height cfg.cycles cfg.intensity 0 N i).2.2.1
              (claimBandCoords rect.width rect.height cfg.cycles cfg.intensity 0 N i).2.2.2
              rect.height) }) ∧
      (∀ i : ℕ, i < N →
        (b3.frames.getD [])[i]? = some
          { alpha := some 0.3
            layout := some { x := some 0, y := some 0, width := some rect.width,
                             height := some rect.height }
            transform := some { a := some 1, d := some 1, tx := some rect.x,
                                ty := some rect.y }
            clipPath := some (quadPath fmt
              (claimBandCoords rect.width rect.height cfg.cycles cfg.intensity
                (rect.width * 0.05) N i).1
              (claimBandCoords rect.width rect.height cfg.cycles cfg.intensity
                (rect.width * 0.05) N i).2.1
              (claimBandCoords rect.width rect.height cfg.cycles cfg.intensity
                (rect.width * 0.05) N i).2.2.1
              (claimBandCoords rect.width rect.height cfg.cycles cfg.intensity
                (rect.width * 0.05) N i).2.2.2
              rect.height) }) := by
  have htf : ((data.params).bind (fun pp => pp.frames)).getD 0 = N := by
    rw [hp]
    simp [hN]
  have hband : ∀ offset alphaVal : ℚ, ∀ i : ℕ, i < N →
      shineBandFrame fmt rect cfg.cycles cfg.intensity offset alphaVal N i =
        { alpha := some alphaVal
          layout := some { x := some 0, y := some 0, width := some rect.width,
                           height := some rect.height }
          transform := some { a := some 1, d := some 1, tx := some rect.x,
                              ty := some rect.y }
          clipPath := some (quadPath fmt
            (claimBandCoords rect.width rect.height cfg.cycles cfg.intensity offset N i).1
            (claimBandCoords rect.width rect.height cfg.cycles cfg.intensity offset N i).2.1
            (claimBandCoords rect.width rect.height cfg.cycles cfg.intensity offset N i).2.2.1
            (claimBandCoords rect.width rect.height cfg.cycles cfg.intensity offset N i).2.2.2
            rect.height) } := by
    intro offset alphaVal i _
    simp only [shineBandFrame, shineBandCoords_eq_claim rect.width rect.height
      cfg.cycles cfg.intensity offset N i hNpos]
  refine ⟨{ imageKey := some (sanitizeKey keyName)
            frames := some ((List.range N).map
              (mainFrame sinFn piVal rect animations cfg.cycles cfg.intensity N))
            matteKey := some "" },
    { imageKey := some (sanitizeKey keyName ++ "_shine")
      frames := some ((List.range N).map
        (shineBandFrame fmt rect cfg.cycles cfg.intensity (-rect.width * 0.05) 0.3 N))
      matteKey := some "" },
    { imageKey := some (sanitizeKey keyName ++ "_shine")
      frames := some ((List.range N).map
        (shineBandFrame fmt rect cfg.cycles cfg.intensity 0 0.9 N))
      matteKey := some "" },
    { imageKey := some (sanitizeKey keyName ++ "_shine")
      frames := some ((List.range N).map
        (shineBandFrame fmt rect cfg.cycles cfg.intensity (rect.width * 0.05) 0.3 N))
      matteKey := some "" }, ?_, ?_, ?_, ?_⟩
  · simp only [addPlaceholderToSvga, htf, placeholderSprites, shineBandLayers]
    simp [hsh]
  · intro i hi
    simp only [Option.getD_some, List.getElem?_map, List.getElem?_range hi,
      Option.map_some']
    rw [hband (-rect.width * 0.05) 0.3 i hi]
  · intro i hi
    simp only [Option.getD_some, List.getElem?_map, List.getElem?_range hi,
      Option.map_some']
    rw [hband 0 0.9 i hi]
  · intro i hi
    simp only [Option.getD_some, List.getElem?_map, List.getElem?_range hi,
      Option.map_some']
    rw [hband (rect.width * 0.05) 0.3 i hi]

/-- Witness for `shine_band_frames` on a one-frame document. -/
theorem shine_band_frames_witness :
    ∃ main b1 b2 b3,
      (addPlaceholderToSvga (fun _ => 0) 0 (fun _ => "") (fun _ _ => [])
          (fun _ _ _ => []) (fun _ _ => [])
          { params := some { frames := some 1 } } ⟨0, 0, 100, 50⟩ "k" none
          [AnimationPreset.shine] ⟨1, 1⟩).sprites
        = some (({ params := some { frames := some 1 } } : SvgaData).sprites.getD []
            ++ [main, b1, b2, b3]) ∧
      (∀ i : ℕ, i < 1 →
        (b1.frames.getD [])[i]? = some
          { alpha := some 0.3
            layout := some { x := some 0, y := some 0, width := some (100 : ℚ),
                             height := some 50 }
            transform := some { a := some 1, d := some 1, tx := some 0, ty := some 0 }
            clipPath := some (quadPath (fun _ => "")
              (claimBandCoords 100 50 1 1 (-(100 : ℚ) * 0.05) 1 i).1
              (claimBandCoords 100 50 1 1 (-(100 : ℚ) * 0.05) 1 i).2.1
              (claimBandCoords 100 50 1 1 (-(100 : ℚ) * 0.05) 1 i).2.2.1
              (claimBandCoords 100 50 1 1 (-(100 : ℚ) * 0.05) 1 i).2.2.2 50) }) ∧
      (∀ i : ℕ, i < 1 →
        (b2.frames.getD [])[i]? = some
          { alpha := some 0.9
            layout := some { x := some 0, y := some 0, width := some (100 : ℚ),
                             height := some 50 }
            transform := some { a := some 1, d := some 1, tx := some 0, ty := some 0 }
            clipPath := some (quadPath (fun _ => "")
              (claimBandCoords 100 50 1 1 0 1 i).1
              (claimBandCoords 100 50 1 1 0 1 i).2.1
              (claimBandCoords 100 50 1 1 0 1 i).2.2.1
              (claimBandCoords 100 50 1 1 0 1 i).2.2.2 50) }) ∧
      (∀ i : ℕ, i < 1 →
        (b3.frames.getD [])[i]? = some
          { alpha := some 0.3
            layout := some { x := some 0, y := some 0, width := some (100 : ℚ),
                             height := some 50 }
            transform := some { a := some 1, d := some 1, tx := some 0, ty := some 0 }
            clipPath := some (quadPath (fun _ => "")
              (claimBandCoords 100 50 1 1 ((100 : ℚ) * 0.05) 1 i).1
              (claimBandCoords 100 50 1 1 ((100 : ℚ) * 0.05) 1 i).2.1
              (claimBandCoords 100 50 1 1 ((100 : ℚ) * 0.05) 1 i).2.2.1
              (claimBandCoords 100 50 1 1 ((100 : ℚ) * 0.05) 1 i).2.2.2 50) }) :=
  shine_band_frames (fun _ => 0) 0 (fun _ => "") (fun _ _ => [])
    (fun _ _ _ => []) (fun _ _ => [])
    { params := some { frames := some 1 } } ⟨0, 0, 100, 50⟩ "k" none
    [AnimationPreset.shine] ⟨1, 1⟩ { frames := some 1 } 1 rfl rfl
    (by norm_num) (by decide)

/-! ## Copy-on-write at the heap level (claim C9) -/

theorem Heap.imagesAt_congr (h1 h2 : Heap) (r : ℕ)
    (he : h1.cells[r]? = h2.cells[r]?) :
    h1.imagesAt (some r) = h2.imagesAt (some r) := by
  simp only [Heap.imagesAt]
  rw [he]

theorem Heap.spritesAt_congr (h1 h2 : Heap) (r : ℕ)
    (he : h1.cells[r]? = h2.cells[r]?) :
    h1.spritesAt (some r) = h2.spritesAt (some r) := by
  simp only [Heap.spritesAt]
  rw [he]

/-- C9: one synthesizer call leaves the original document untouched — every
pre-existing heap cell (in particular the original document's `images` and
`sprites` containers) is unchanged, the returned document's `images` and
`sprites` references are freshly allocated cells past the old heap, distinct
from the original's references and from each other, and those fresh cells
hold the synthesized containers. -/
theorem synthesizer_copy_on_write (sinFn : ℚ → ℚ) (piVal : ℚ) (fmt : ℚ → String)
    (placeholderPng : ℚ → ℚ → List ℕ)
    (paleGoldSilhouette : List ℕ → ℚ → ℚ → List ℕ)
    (paleGoldRect : ℚ → ℚ → List ℕ)
    (heap : Heap) (doc : DocRef) (rect : Rect) (keyName : String)
    (customImageBytes : Option (List ℕ)) (animations : List AnimationPreset)
    (cfg : AnimationConfig) :
    (∀ i, i < heap.cells.length →
      (addPlaceholderToSvgaAlloc sinFn piVal fmt placeholderPng paleGoldSilhouette
          paleGoldRect heap doc rect keyName customImageBytes animations
          cfg).1.cells[i]? = heap.cells[i]?) ∧
    (addPlaceholderToSvgaAlloc sinFn piVal fmt placeholderPng paleGoldSilhouette
        paleGoldRect heap doc rect keyName customImageBytes animations
        cfg).2.imagesRef = some heap.cells.length ∧
    (addPlaceholderToSvgaAlloc sinFn piVal fmt placeholderPng paleGoldSilhouette
        paleGoldRect heap doc rect keyName customImageBytes animations
        cfg).2.spritesRef = some (heap.cells.length + 1) ∧
    (∀ r, doc.imagesRef = some r → r < heap.cells.length →
      (addPlaceholderToSvgaAlloc sinFn piVal fmt placeholderPng paleGoldSilhouette
          paleGoldRect heap doc rect keyName customImageBytes animations
          cfg).1.imagesAt doc.imagesRef = heap.imagesAt doc.imagesRef ∧
      (addPlaceholderToSvgaAlloc sinFn piVal fmt placeholderPng paleGoldSilhouette
          paleGoldRect heap doc rect keyName customImageBytes animations
          cfg).2.imagesRef ≠ doc.imagesRef) ∧
    (∀ r, doc.spritesRef = some r → r < heap.cells.length →
      (addPlaceholderToSvgaAlloc sinFn piVal fmt placeholderPng paleGoldSilhouette
          paleGoldRect heap doc rect keyName customImageBytes animations
          cfg).1.spritesAt doc.spritesRef = heap.spritesAt doc.spritesRef ∧
      (addPlaceholderToSvgaAlloc sinFn piVal fmt placeholderPng paleGoldSilhouette
          paleGoldRect heap doc rect keyName customImageBytes animations
          cfg).2.spritesRef ≠ doc.spritesRef) ∧
    (addPlaceholderToSvgaAlloc sinFn piVal fmt placeholderPng paleGoldSilhouette
        paleGoldRect heap doc rect keyName customImageBytes animations
        cfg).2.imagesRef ≠
      (addPlaceholderToSvgaAlloc sinFn piVal fmt placeholderPng paleGoldSilhouette
          paleGoldRect heap doc rect keyName customImageBytes animations
          cfg).2.spritesRef ∧
    (addPlaceholderToSvgaAlloc sinFn piVal fmt placeholderPng paleGoldSilhouette
        paleGoldRect heap doc rect keyName customImageBytes animations
        cfg).1.imagesAt (some heap.cells.length) =
      some ((addPlaceholderToSvga sinFn piVal fmt placeholderPng paleGoldSilhouette
          paleGoldRect (doc.deref heap) rect keyName customImageBytes animations
          cfg).images.getD []) ∧
    (addPlaceholderToSvgaAlloc sinFn piVal fmt placeholderPng paleGoldSilhouette
        paleGoldRect heap doc rect keyName customImageBytes animations
        cfg).1.spritesAt (some (heap.cells.length + 1)) =
      some ((addPlaceholderToSvga sinFn piVal fmt placeholderPng paleGoldSilhouette
          paleGoldRect (doc.deref heap) rect keyName customImageBytes animations
          cfg).sprites.getD []) := by
  have hcells : (addPlaceholderToSvgaAlloc sinFn piVal fmt placeholderPng
      paleGoldSilhouette paleGoldRect heap doc rect keyName customImageBytes
      animations cfg).1.cells = heap.cells ++
        [Cell.imagesCell ((addPlaceholderToSvga sinFn piVal fmt placeholderPng
            paleGoldSilhouette paleGoldRect (doc.deref heap) rect keyName
            customImageBytes animations cfg).images.getD []),
         Cell.spritesCell ((addPlaceholderToSvga sinFn piVal fmt placeholderPng
            paleGoldSilhouette paleGoldRect (doc.deref heap) rect keyName
            customImageBytes animations cfg).sprites.getD [])] := rfl
  have hpres : ∀ i, i < heap.cells.length →
      (addPlaceholderToSvgaAlloc sinFn piVal fmt placeholderPng paleGoldSilhouette
          paleGoldRect heap doc rect keyName customImageBytes animations
          cfg).1.cells[i]? = heap.cells[i]? := by
    intro i hi
    rw [hcells]
    exact List.getElem?_append_left hi
  have hiR : (addPlaceholderToSvgaAlloc sinFn piVal fmt placeholderPng
      paleGoldSilhouette paleGoldRect heap doc rect keyName customImageBytes
      animations cfg).2.imagesRef = some heap.cells.length := rfl
  have hsR : (addPlaceholderToSvgaAlloc sinFn piVal fmt placeholderPng
      paleGoldSilhouette paleGoldRect heap doc rect keyName customImageBytes
      animations cfg).2.spritesRef = some (heap.cells.length + 1) := rfl
  have hgetI : (addPlaceholderToSvgaAlloc sinFn piVal fmt placeholderPng
      paleGoldSilhouette paleGoldRect heap doc rect keyName customImageBytes
      animations cfg).1.cells[heap.cells.length]? =
        some (Cell.imagesCell ((addPlaceholderToSvga sinFn piVal fmt placeholderPng
          paleGoldSilhouette paleGoldRect (doc.deref heap) rect keyName
          customImageBytes animations cfg).images.getD [])) := by
    rw [hcells, List.getElem?_append_right (le_refl heap.cells.length)]
    simp
  have hgetS : (addPlaceholderToSvgaAlloc sinFn piVal fmt placeholderPng
      paleGoldSilhouette paleGoldRect heap doc rect keyName customImageBytes
      animations cfg).1.cells[heap.cells.length + 1]? =
        some (Cell.spritesCell ((addPlaceholderToSvga sinFn piVal fmt placeholderPng
          paleGoldSilhouette paleGoldRect (doc.deref heap) rect keyName
          customImageBytes animations cfg).sprites.getD [])) := by
    rw [hcells, List.getElem?_append_right
      (by omega : heap.cells.length ≤ heap.cells.length + 1)]
    simp
  refine ⟨hpres, hiR, hsR, ?_, ?_, ?_, ?_, ?_⟩
  · intro r hr hlt
    constructor
    · rw [hr]
      exact Heap.imagesAt_congr _ _ r (hpres r hlt)
    · rw [hr, hiR]
      intro hc
      exact absurd (Option.some.inj hc) (by omega)
  · intro r hr hlt
    constructor
    · rw [hr]
      exact Heap.spritesAt_congr _ _ r (hpres r hlt)
    · rw [hr, hsR]
      intro hc
      exact absurd (Option.some.inj hc) (by omega)
  · rw [hiR, hsR]
    intro hc
    exact absurd (Option.some.inj hc) (by omega)
  · simp [Heap.imagesAt, hgetI]
  · simp [Heap.spritesAt, hgetS]

/-- Witness for `synthesizer_copy_on_write` on a two-cell heap whose document
references both cells. -/
theorem synthesizer_copy_on_write_witness :
    (addPlaceholderToSvgaAlloc (fun _ => 0) 0 (fun _ => "") (fun _ _ => [])
        (fun _ _ _ => []) (fun _ _ => [])
        ⟨[Cell.imagesCell [], Cell.spritesCell []]⟩
        { imagesRef := some 0, spritesRef := some 1 } ⟨0, 0, 1, 1⟩ "k" none [] ⟨1, 1⟩).1.cells[0]?
      = (⟨[Cell.imagesCell [], Cell.spritesCell []]⟩ : Heap).cells[0]? ∧
    (addPlaceholderToSvgaAlloc (fun _ => 0) 0 (fun _ => "") (fun _ _ => [])
        (fun _ _ _ => []) (fun _ _ => [])
        ⟨[Cell.imagesCell [], Cell.spritesCell []]⟩
        { imagesRef := some 0, spritesRef := some 1 } ⟨0, 0, 1, 1⟩ "k" none [] ⟨1, 1⟩).2.imagesRef
      ≠ some 0 ∧
    (addPlaceholderToSvgaAlloc (fun _ => 0) 0 (fun _ => "") (fun _ _ => [])
        (fun _ _ _ => []) (fun _ _ => [])
        ⟨[Cell.imagesCell [], Cell.spritesCell []]⟩
        { imagesRef := some 0, spritesRef := some 1 } ⟨0, 0, 1, 1⟩ "k" none [] ⟨1, 1⟩).2.spritesRef
      ≠ some 1 := by
  have h := synthesizer_copy_on_write (fun _ => 0) 0 (fun _ => "") (fun _ _ => [])
    (fun _ _ _ => []) (fun _ _ => [])
    ⟨[Cell.imagesCell [], Cell.spritesCell []]⟩
    { imagesRef := some 0, spritesRef := some 1 } ⟨0, 0, 1, 1⟩ "k" none [] ⟨1, 1⟩
  exact ⟨h.1 0 (by norm_num),
    (h.2.2.2.1 0 rfl (by norm_num)).2,
    (h.2.2.2.2.1 1 rfl (by norm_num)).2⟩

/-! ## Base64 round trip (claim C10) -/

theorem b64Dec_b64Enc : ∀ s : ℕ, s < 64 → b64Dec (b64Enc s) = some s := by decide

theorem b64Enc_mem (s : ℕ) : b64Enc s ∈ b64Alphabet := by
  unfold b64Enc
  rw [List.getD_eq_getElem?_getD]
  rcases h : b64Alphabet[s]? with _ | c
  · decide
  · exact List.getElem?_mem h

theorem b64Enc_ne_pad (s : ℕ) : b64Enc s ≠ '=' := by
  have hm := b64Enc_mem s
  intro h
  rw [h] at hm
  revert hm
  decide

theorem btoaL_length_mod : ∀ b : List ℕ, (btoaL b).length % 4 = 0
  | [] => by simp [btoaL]
  | [_] => by simp [btoaL]
  | [_, _] => by simp [btoaL]
  | _ :: _ :: _ :: rest => by
      have ih := btoaL_length_mod rest
      simp only [btoaL, List.length_cons]
      omega

theorem btoaL_mem : ∀ b : List ℕ, ∀ c ∈ btoaL b, c ∈ b64Alphabet ∨ c = '='
  | [], c, hc => by simp [btoaL] at hc
  | [a], c, hc => by
      simp only [btoaL, List.mem_cons, List.not_mem_nil, or_false] at hc
      rcases hc with rfl | rfl | rfl | rfl
      · exact Or.inl (b64Enc_mem _)
      · exact Or.inl (b64Enc_mem _)
      · exact Or.inr rfl
      · exact Or.inr rfl
  | [a, b], c, hc => by
      simp only [btoaL, List.mem_cons, List.not_mem_nil, or_false] at hc
      rcases hc with rfl | rfl | rfl | rfl
      · exact Or.inl (b64Enc_mem _)
      · exact Or.inl (b64Enc_mem _)
      · exact Or.inl (b64Enc_mem _)
      · exact Or.inr rfl
  | a :: b :: c' :: rest, c, hc => by
      simp only [btoaL, List.mem_cons] at hc
      rcases hc with rfl | rfl | rfl | rfl | hc
      · exact Or.inl (b64Enc_mem _)
      · exact Or.inl (b64Enc_mem _)
      · exact Or.inl (b64Enc_mem _)
      · exact Or.inl (b64Enc_mem _)
      · exact btoaL_mem rest c hc

theorem btoaL_cons_ne_nil (x : ℕ) (xs : List ℕ) : btoaL (x :: xs) ≠ [] := by
  rcases xs with _ | ⟨y, _ | ⟨z, more⟩⟩ <;> simp [btoaL]

theorem atobL_btoaL : ∀ b : List ℕ, (∀ x ∈ b, x < 256) → atobL (btoaL b) = some b
  | [], _ => rfl
  | [a], h => by
      have ha : a < 256 := h a (by simp)
      have h1 : b64Dec (b64Enc (a / 4)) = some (a / 4) := b64Dec_b64Enc _ (by omega)
      have h2 : b64Dec (b64Enc (a % 4 * 16)) = some (a % 4 * 16) :=
        b64Dec_b64Enc _ (by omega)
      simp [btoaL, atobL, atobLast, h1, h2]
      omega
  | [a, b], h => by
      have ha : a < 256 := h a (by simp)
      have hb : b < 256 := h b (by simp)
      have h1 : b64Dec (b64Enc (a / 4)) = some (a / 4) := b64Dec_b64Enc _ (by omega)
      have h2 : b64Dec (b64Enc (a % 4 * 16 + b / 16)) = some (a % 4 * 16 + b / 16) :=
        b64Dec_b64Enc _ (by omega)
      have h3 : b64Dec (b64Enc (b % 16 * 4)) = some (b % 16 * 4) :=
        b64Dec_b64Enc _ (by omega)
      simp [btoaL, atobL, atobLast, b64Enc_ne_pad, h1, h2, h3]
      omega
  | a :: b :: c :: rest, h => by
      have ha : a < 256 := h a (by simp)
      have hb : b < 256 := h b (by simp)
      have hc : c < 256 := h c (by simp)
      have h1 : b64Dec (b64Enc (a / 4)) = some (a / 4) := b64Dec_b64Enc _ (by omega)
      have h2 : b64Dec (b64Enc (a % 4 * 16 + b / 16)) = some (a % 4 * 16 + b / 16) :=
        b64Dec_b64Enc _ (by omega)
      have h3 : b64Dec (b64Enc (b % 16 * 4 + c / 64)) = some (b % 16 * 4 + c / 64) :=
        b64Dec_b64Enc _ (by omega)
      have h4 : b64Dec (b64Enc (c % 64)) = some (c % 64) := b64Dec_b64Enc _ (by omega)
      match rest with
      | [] =>
          simp [btoaL, atobL, atobLast, b64Enc_ne_pad, h1, h2, h3, h4]
          omega
      | r :: rs =>
          have hrec : atobL (btoaL (r :: rs)) = some (r :: rs) :=
            atobL_btoaL (r :: rs) (fun x hx => h x (by simp [hx]))
          have hnil := btoaL_cons_ne_nil r rs
          simp [btoaL, atobL, atobLast, b64Enc_ne_pad, h1, h2, h3, h4, hrec, hnil]
          omega

theorem dropWhile_eq_self_of_forall {α : Type} (p : α → Bool) (l : List α)
    (h : ∀ c ∈ l, p c = false) : l.dropWhile p = l := by
  cases l with
  | nil => rfl
  | cons a l =>
      rw [List.dropWhile_cons_of_neg]
      simp [h a (by simp)]

theorem jsTrim_eq_self (l : List Char) (h : ∀ c ∈ l, isJsWs c = false) :
    jsTrim l = l := by
  unfold jsTrim
  rw [dropWhile_eq_self_of_forall _ _ h,
    dropWhile_eq_self_of_forall _ _ (fun c hc => h c (List.mem_reverse.mp hc)),
    List.reverse_reverse]

/-- C10: for every byte array `b`, decoding the base64 string produced from
`b` recovers exactly `b`: `base64ToUint8Array (uint8ArrayToBase64 b) = b`, so
image bytes stored as base64 text in the document model are reproduced
byte-exactly by the encoder. -/
theorem base64_roundtrip (b : List ℕ) (hb : ∀ x ∈ b, x < 256) :
    base64ToUint8Array (uint8ArrayToBase64 b) = b := by
  have hmem := btoaL_mem b
  have halpha : ∀ c ∈ b64Alphabet, c ≠ ',' ∧ isJsWs c = false := by decide
  have hnc : ∀ c ∈ btoaL b, c ≠ ',' := by
    intro c hc
    rcases hmem c hc with hm | rfl
    · exact (halpha c hm).1
    · decide
  have hnw : ∀ c ∈ btoaL b, isJsWs c = false := by
    intro c hc
    rcases hmem c hc with hm | rfl
    · exact (halpha c hm).2
    · decide
  have hnotmem : ',' ∉ btoaL b := fun hm => (hnc ',' hm) rfl
  have hcontains : ((btoaL b).contains ',') = false := by
    rw [Bool.eq_false_iff]
    intro hcont
    exact hnotmem (List.elem_iff.mp hcont)
  have htrim : jsTrim (btoaL b) = btoaL b := jsTrim_eq_self _ hnw
  have hpad : fixBase64Padding (btoaL b) = btoaL b := by
    unfold fixBase64Padding
    rw [btoaL_length_mod b]
    simp
  simp only [base64ToUint8Array, uint8ArrayToBase64, String.toList, hcontains,
    Bool.false_eq_true, if_false, htrim, hpad, atobL_btoaL b hb]

/-- Witness for `base64_roundtrip` on the bytes `[0, 1, 77, 254, 255]`. -/
theorem base64_roundtrip_witness :
    base64ToUint8Array (uint8ArrayToBase64 [0, 1, 77, 254, 255]) =
      [0, 1, 77, 254, 255] :=
  base64_roundtrip [0, 1, 77, 254, 255] (by decide)

end Svga
